import Mathlib

/-!
Verification of the authenticated-fetch client of the wakaagent front-end
and of its call sites.

The repository ships the callers (profile service, profile page, edit-profile
drawer, offices page, order drawer, parcel dialog, order-form preloader); the
client itself (api-client) is not part of the sources, so its behaviour is
modelled from the specification. Every other definition below is a direct
translation of the corresponding source function.
-/

namespace WakaAgent

/-! ## Basic data -/

/-- Whether the second character list is an initial segment of the first,
the semantics of the JS startsWith test. -/
def leadsWith : List Char → List Char → Bool
  | _, [] => true
  | [], _ :: _ => false
  | c :: cs, p :: ps => c == p && leadsWith cs ps

/-- Whether the second character list occurs contiguously inside the first,
the semantics of the JS includes test. -/
def hasSubstrList : List Char → List Char → Bool
  | [], p => p.isEmpty
  | c :: cs, p => leadsWith (c :: cs) p || hasSubstrList cs p

/-- The substring test the sources run as message.includes with the fatal
marker. -/
def containsTokenRefreshFailed (m : String) : Bool :=
  hasSubstrList m.data ("Token refresh failed").data

/-- All-whitespace test: JS q.trim() is falsy exactly when every character
of q is whitespace. -/
def allWhitespace (s : String) : Bool :=
  s.data.all Char.isWhitespace

/-- The distinguished fatal message carried by the refresh-failure error. -/
def tokenRefreshFailedMsg : String := "Token refresh failed"

/-- Request bodies: a JSON object (field list stands for JSON.stringify of a
record) or a multipart FormData payload. -/
inductive ReqBody
  | json (fields : List (String × String))
  | formData
deriving DecidableEq

/-- The options argument of fetchWithAuth: method, headers, optional body. -/
structure RequestOptions where
  method : String
  headers : List (String × String)
  body : Option ReqBody
deriving DecidableEq

/-- A request as actually put on the wire: the caller options with the bearer
token attached. -/
structure SentRequest where
  url : String
  method : String
  headers : List (String × String)
  body : Option ReqBody
  bearer : String
deriving DecidableEq

/-- An HTTP response; json is the outcome of response.json() on its body,
error when parsing would throw. -/
structure Response (β : Type) where
  status : Nat
  json : Except String β

/-- response.ok of the fetch API: status in the 2xx range. -/
def Response.isOkStatus (r : Response β) : Bool :=
  decide (200 ≤ r.status ∧ r.status < 300)

/-- Body of a reply of the token-refresh endpoint; tokens is the
access/refresh pair its JSON yields, none when the payload is malformed. -/
structure RefreshResponse where
  status : Nat
  tokens : Option (String × String)
deriving DecidableEq

/-- Outcome of one network transmission: a response, or a network error
carrying a message. -/
inductive NetResult (α : Type)
  | ok (a : α)
  | netError (msg : String)

/-- Behaviour of the remote API during one fetchWithAuth invocation: the
resource endpoint as a function of the bearer token presented, and the
refresh endpoint as a function of the refresh token presented. -/
structure FetchEnv (β : Type) where
  send : String → NetResult (Response β)
  refresh : String → NetResult RefreshResponse

/-- The caller-supplied async token-rotation callback; error models a
rejected promise. -/
def TokenCallback : Type := String → String → Except String Unit

/-- Trace of one invocation: requests sent to the resource endpoint in
order, number of refresh calls, and the invocations of the callback. -/
structure Trace where
  sends : List SentRequest
  refreshCalls : Nat
  tokenUpdates : List (String × String)
deriving DecidableEq

/-- Attach the Authorization bearer header to the caller options. -/
def mkSent (url : String) (opts : RequestOptions) (token : String) : SentRequest :=
  { url := url
    method := opts.method
    headers := opts.headers ++ [("Authorization", "Bearer " ++ token)]
    body := opts.body
    bearer := token }

/-- Modelled from the spec: fetchWithAuth of the api-client module, absent
from the sources. Sends the request with the access token; a non-401
response is returned as-is; on 401 it calls the refresh endpoint with the
refresh token, and on refresh success (2xx with a well-formed token pair)
invokes the callback with the new pair and retries the original request
exactly once with the new access token, returning that reply; on refresh
failure (network error, non-2xx, or malformed response) it fails with the
Token refresh failed error; a callback rejection propagates and aborts the
retry. -/
def fetchWithAuth (env : FetchEnv β) (url : String) (opts : RequestOptions)
    (accessToken refreshToken : String) (onTokenUpdate : TokenCallback) :
    Except String (Response β) × Trace :=
  match env.send accessToken with
  | .netError m => (.error m, ⟨[mkSent url opts accessToken], 0, []⟩)
  | .ok resp =>
    if resp.status == 401 then
      match env.refresh refreshToken with
      | .netError _ => (.error tokenRefreshFailedMsg, ⟨[mkSent url opts accessToken], 1, []⟩)
      | .ok rr =>
        if decide (200 ≤ rr.status ∧ rr.status < 300) then
          match rr.tokens with
          | some (newAccess, newRefresh) =>
            match onTokenUpdate newAccess newRefresh with
            | .error m =>
              (.error m, ⟨[mkSent url opts accessToken], 1, [(newAccess, newRefresh)]⟩)
            | .ok _ =>
              match env.send newAccess with
              | .netError m =>
                (.error m,
                  ⟨[mkSent url opts accessToken, mkSent url opts newAccess], 1,
                    [(newAccess, newRefresh)]⟩)
              | .ok retryResp =>
                (.ok retryResp,
                  ⟨[mkSent url opts accessToken, mkSent url opts newAccess], 1,
                    [(newAccess, newRefresh)]⟩)
          | none => (.error tokenRefreshFailedMsg, ⟨[mkSent url opts accessToken], 1, []⟩)
        else (.error tokenRefreshFailedMsg, ⟨[mkSent url opts accessToken], 1, []⟩)
    else (.ok resp, ⟨[mkSent url opts accessToken], 0, []⟩)

/-- The refresh path fails: network error, non-2xx reply, or malformed
token payload. -/
def refreshFails (env : FetchEnv β) (refreshToken : String) : Prop :=
  (∃ m, env.refresh refreshToken = .netError m) ∨
  (∃ rr, env.refresh refreshToken = .ok rr ∧
    (¬ (200 ≤ rr.status ∧ rr.status < 300) ∨ rr.tokens = none))

/-! ## Profile service (lib/services/profile.ts) -/

/-- The UserProfile payload of the profile endpoint. -/
structure UserProfile where
  username : String
  email : String
  phone_number : String
  user_type : String
  is_verified : Bool
  preferred_contact : String
  avatar : Option String
deriving DecidableEq

/-- The ProfileImageResponse payload of the profile-image endpoint. -/
structure ProfileImageResponse where
  image_url : String
  message : String
deriving DecidableEq

/-- The header list the JSON profile calls pass explicitly. -/
def jsonHeaders : List (String × String) := [("Content-Type", "application/json")]

/-- URL of the user-profile endpoint (value of getApiUrl on USER_PROFILE). -/
def userProfileUrl : String := "/api/auth/profile"

/-- URL of the profile-image endpoint (value of getApiUrl on PROFILE_IMAGE). -/
def profileImageUrl : String := "/api/auth/profile/image"

/-- fetchUserProfile: GET the profile; a non-ok reply yields null, an ok
reply is parsed; a thrown error is re-thrown when its message carries the
fatal marker and otherwise swallowed into null. -/
def fetchUserProfile (env : FetchEnv UserProfile)
    (accessToken refreshToken : String) (onTokenUpdate : TokenCallback) :
    Except String (Option UserProfile) × Trace :=
  match fetchWithAuth env userProfileUrl
      { method := "GET", headers := jsonHeaders, body := none }
      accessToken refreshToken onTokenUpdate with
  | (.error m, tr) => (if containsTokenRefreshFailed m then .error m else .ok none, tr)
  | (.ok resp, tr) =>
    if resp.isOkStatus then
      match resp.json with
      | .error m => (if containsTokenRefreshFailed m then .error m else .ok none, tr)
      | .ok data => (.ok (some data), tr)
    else
      (.ok none, tr)

/-- updateUserProfile: PUT the username and phone number; otherwise the same
shape as fetchUserProfile. -/
def updateUserProfile (env : FetchEnv UserProfile) (username phone_number : String)
    (accessToken refreshToken : String) (onTokenUpdate : TokenCallback) :
    Except String (Option UserProfile) × Trace :=
  match fetchWithAuth env userProfileUrl
      { method := "PUT", headers := jsonHeaders,
        body := some (.json [("username", username), ("phone_number", phone_number)]) }
      accessToken refreshToken onTokenUpdate with
  | (.error m, tr) => (if containsTokenRefreshFailed m then .error m else .ok none, tr)
  | (.ok resp, tr) =>
    if resp.isOkStatus then
      match resp.json with
      | .error m => (if containsTokenRefreshFailed m then .error m else .ok none, tr)
      | .ok data => (.ok (some data), tr)
    else
      (.ok none, tr)

/-- fetchProfileImage: GET the image record; a 404 reply means no image and
yields null; any other non-ok reply yields null; an ok reply yields the
image URL, or null when that URL is falsy; thrown errors are re-thrown
exactly when their message carries the fatal marker. -/
def fetchProfileImage (env : FetchEnv ProfileImageResponse)
    (accessToken refreshToken : String) (onTokenUpdate : TokenCallback) :
    Except String (Option String) × Trace :=
  match fetchWithAuth env profileImageUrl
      { method := "GET", headers := jsonHeaders, body := none }
      accessToken refreshToken onTokenUpdate with
  | (.error m, tr) => (if containsTokenRefreshFailed m then .error m else .ok none, tr)
  | (.ok resp, tr) =>
    if resp.isOkStatus then
      match resp.json with
      | .error m => (if containsTokenRefreshFailed m then .error m else .ok none, tr)
      | .ok data => (.ok (if data.image_url == "" then none else some data.image_url), tr)
    else
      if resp.status == 404 then (.ok none, tr) else (.ok none, tr)

/-- The 15MB upload bound of uploadProfileImage. -/
def maxUploadSize : Nat := 15 * 1024 * 1024

/-- The message of the size-check error of uploadProfileImage. -/
def fileSizeMsg : String := "File size exceeds 15MB limit"

/-- The try-block of uploadProfileImage, after the size check: POST the
FormData body with no explicit headers; the catch clause re-throws every
thrown error, so errors pass through. -/
def uploadProfileImageBody (env : FetchEnv ProfileImageResponse)
    (accessToken refreshToken : String) (onTokenUpdate : TokenCallback) :
    Except String (Option String) × Trace :=
  match fetchWithAuth env profileImageUrl
      { method := "POST", headers := [], body := some .formData }
      accessToken refreshToken onTokenUpdate with
  | (.error m, tr) => (.error m, tr)
  | (.ok resp, tr) =>
    if resp.isOkStatus then
      match resp.json with
      | .error m => (.error m, tr)
      | .ok data => (.ok (if data.image_url == "" then none else some data.image_url), tr)
    else
      (.ok none, tr)

/-- uploadProfileImage: throw the size error before any network work when
the file exceeds 15MB, else run the upload. -/
def uploadProfileImage (env : FetchEnv ProfileImageResponse) (fileSize : Nat)
    (accessToken refreshToken : String) (onTokenUpdate : TokenCallback) :
    Except String (Option String) × Trace :=
  if fileSize > maxUploadSize then
    (.error fileSizeMsg, ⟨[], 0, []⟩)
  else
    uploadProfileImageBody env accessToken refreshToken onTokenUpdate

/-! ## UI-level catch handlers

One record per catch clause that can observe the fatal refresh error,
translated clause by clause from the page and drawer sources. -/

/-- What a catch clause does: whether it clears the session via signOut,
where it navigates, which toast it raises, and which inline error state it
sets. -/
structure UiOutcome where
  signedOut : Bool
  redirectedTo : Option String
  toastError : Option String
  errorState : Option String
deriving DecidableEq

/-- Catch clause of loadProfile on the profile page: on the fatal marker,
sign out and go to the login page; otherwise raise a transient toast. -/
def loadProfileCatch (msg : String) : UiOutcome :=
  if containsTokenRefreshFailed msg then
    { signedOut := true, redirectedTo := some ("/login"), toastError := none, errorState := none }
  else
    { signedOut := false, redirectedTo := none,
      toastError := some ("Failed to load profile. Please try again."), errorState := none }

/-- Catch clause of loadOffices on the offices page: on the fatal marker,
sign out and go to the login page; otherwise set the inline error state. -/
def loadOfficesCatch (msg : String) : UiOutcome :=
  if containsTokenRefreshFailed msg then
    { signedOut := true, redirectedTo := some ("/login"), toastError := none, errorState := none }
  else
    { signedOut := false, redirectedTo := none, toastError := none,
      errorState := some ("Failed to load offices. Please try again.") }

/-- Catch clause of loadData in the create-order drawer. -/
def createOrderLoadCatch (msg : String) : UiOutcome :=
  if containsTokenRefreshFailed msg then
    { signedOut := true, redirectedTo := some ("/login"), toastError := none, errorState := none }
  else
    { signedOut := false, redirectedTo := none,
      toastError := some ("Failed to load form data. Please try again."), errorState := none }

/-- Catch clause of handleConfirmSubmit in the create-order drawer. -/
def createOrderSubmitCatch (msg : String) : UiOutcome :=
  if containsTokenRefreshFailed msg then
    { signedOut := true, redirectedTo := some ("/login"), toastError := none, errorState := none }
  else
    { signedOut := false, redirectedTo := none,
      toastError := some ("Failed to create order. Please try again."), errorState := none }

/-- Catch clause of handleSubmit in the edit-profile drawer: on the fatal
marker it raises the session-expired toast and returns, with no signOut and
no navigation. -/
def editProfileSubmitCatch (msg : String) : UiOutcome :=
  if containsTokenRefreshFailed msg then
    { signedOut := false, redirectedTo := none,
      toastError := some ("Session expired. Please login again."), errorState := none }
  else
    { signedOut := false, redirectedTo := none,
      toastError := some ("Failed to update profile. Please try again."), errorState := none }

/-- Substring test for 15MB, as message.includes in the image-upload catch. -/
def containsSize15MB (m : String) : Bool :=
  hasSubstrList m.data ("15MB").data

/-- Catch clause of handleImageUpload in the edit-profile drawer: the fatal
marker and the size message each get their toast; no signOut, no
navigation in any branch. -/
def imageUploadCatch (msg : String) : UiOutcome :=
  if containsTokenRefreshFailed msg then
    { signedOut := false, redirectedTo := none,
      toastError := some ("Session expired. Please login again."), errorState := none }
  else if containsSize15MB msg then
    { signedOut := false, redirectedTo := none, toastError := some msg, errorState := none }
  else
    { signedOut := false, redirectedTo := none,
      toastError := some ("Failed to upload image. Please try again."), errorState := none }

/-- Catch clause of preloadData in the order-form preloader: background
loading, so every error, the fatal one included, is only logged to the
console, with no toast, no signOut and no navigation; the error content is
never inspected. -/
def preloaderCatch (_msg : String) : UiOutcome :=
  { signedOut := false, redirectedTo := none, toastError := none, errorState := none }

/-! ## Token-presence guards at the call sites

Session fields are modelled as Option String: none for a missing session or
field, and the empty string is falsy exactly as in the sources. -/

/-- JS truthiness of an optional string field. -/
def truthy : Option String → Bool
  | none => false
  | some s => s != ""

/-- Guard of loadProfile on the profile page: return early unless both
tokens are present. -/
def loadProfileProceeds (accessTok refreshTok : Option String) : Bool :=
  truthy accessTok && truthy refreshTok

/-- Guard of handleProfileUpdate on the profile page: refetch the image only
when both tokens are present. -/
def handleProfileUpdateProceeds (accessTok refreshTok : Option String) : Bool :=
  truthy accessTok && truthy refreshTok

/-- Guard chain of handleSubmit in the edit-profile drawer: tokens first,
then the required fields. -/
def editProfileSubmitProceeds (accessTok refreshTok : Option String)
    (username phoneNumber : String) : Bool :=
  truthy accessTok && truthy refreshTok
    && !(allWhitespace username) && !(allWhitespace phoneNumber)

/-- A selected file, as the image-upload handler sees it. -/
structure FileInfo where
  name : String
  size : Nat
  type : String
deriving DecidableEq

/-- Guard chain of handleImageUpload in the edit-profile drawer: a file must
be selected, both tokens present, the type an image, the size within 15MB. -/
def handleImageUploadProceeds (file : Option FileInfo)
    (accessTok refreshTok : Option String) : Bool :=
  match file with
  | none => false
  | some f =>
    truthy accessTok && truthy refreshTok
      && leadsWith f.type.data ("image/").data && decide (f.size ≤ maxUploadSize)

/-- Guard of loadOffices on the offices page: tokens first, then skip while
a refresh is already in flight unless forced. -/
def loadOfficesProceeds (accessTok refreshTok : Option String)
    (force isRefreshing : Bool) : Bool :=
  truthy accessTok && truthy refreshTok && (force || !isRefreshing)

/-- Guard of the order-form preloader effect: tokens first, then skip when
the cache is still valid and populated. -/
def preloaderProceeds (accessTok refreshTok : Option String)
    (cacheValid : Bool) (officesLen windowsLen : Nat) : Bool :=
  truthy accessTok && truthy refreshTok
    && !(cacheValid && decide (0 < officesLen) && decide (0 < windowsLen))

/-- Guard of loadData in the create-order drawer: the drawer must be open
and both tokens present. -/
def createOrderLoadProceeds (isOpen : Bool) (accessTok refreshTok : Option String) : Bool :=
  isOpen && truthy accessTok && truthy refreshTok

/-- Guard of handleConfirmSubmit in the create-order drawer. -/
def createOrderSubmitProceeds (accessTok refreshTok : Option String) : Bool :=
  truthy accessTok && truthy refreshTok

/-- Guard of the debounced office search in the parcel dialog: only the
query is checked; the token props do not appear in the guard. The tokens
are plain string props here, wired by the parent as session token or the
empty string. -/
def addParcelSearchProceeds (query : String) (_accessTok _refreshTok : String) : Bool :=
  !(allWhitespace query) && decide (3 ≤ query.length)

/-- The service invocation the parcel-dialog search performs: the token
pair it hands to searchAgentOfficesByLocation when the guard lets the
debounced request fire, none when the effect returns early. -/
def addParcelSearchCall (query : String) (accessTok refreshTok : String) :
    Option (String × String) :=
  if addParcelSearchProceeds query accessTok refreshTok then
    some (accessTok, refreshTok)
  else
    none

/-! ## The parcel-dialog search catch clause -/

/-- The dialog state the search effect touches. -/
structure ParcelSearchState where
  destinationOffices : List String
  selectedDestinationOffice : String
  isSearching : Bool
deriving DecidableEq

/-- Whether a header list carries an explicit content-type entry, compared
case-insensitively on the header name. -/
def hasContentType (hs : List (String × String)) : Bool :=
  hs.any (fun h => h.1.data.map Char.toLower == ("content-type").data)

/-- A thrown JS error, with its name and message. -/
structure JsError where
  name : String
  message : String
deriving DecidableEq

/-- Everything the catch and finally clauses of the search effect do. -/
structure SearchCatchResult where
  state : ParcelSearchState
  logged : Bool
  toastError : Option String
  signedOut : Bool
  redirectedTo : Option String
deriving DecidableEq

/-- Catch and finally clauses of the debounced search: a mounted component
logs and clears the result lists on any error that is not an AbortError;
an AbortError leaves them untouched; finally clears the searching flag when
mounted; no toast, no signOut, no navigation on any path. -/
def addParcelSearchCatch (isMounted : Bool) (e : JsError)
    (s : ParcelSearchState) : SearchCatchResult :=
  let afterCatch :=
    if isMounted && !(e.name == "AbortError") then
      ({ s with destinationOffices := [], selectedDestinationOffice := "" }, true)
    else
      (s, false)
  let afterFinally :=
    if isMounted then { afterCatch.1 with isSearching := false } else afterCatch.1
  { state := afterFinally
    logged := afterCatch.2
    toastError := none
    signedOut := false
    redirectedTo := none }

/-! ## Concrete environments used by the witnesses -/

/-- A sample profile record. -/
def sampleProfile : UserProfile :=
  { username := "alice"
    email := "alice@example.com"
    phone_number := "+254700000000"
    user_type := "agent"
    is_verified := true
    preferred_contact := "email"
    avatar := none }

/-- Callback that always resolves. -/
def cbOk : TokenCallback := fun _ _ => .ok ()

/-- Backend of the scenario of the spec: token A1 gets 401, refresh of R1
rotates to A2 and R2, and A2 gets a 200 profile. -/
def envRotate : FetchEnv UserProfile :=
  { send := fun tok =>
      if tok == "A2" then .ok { status := 200, json := .ok sampleProfile }
      else .ok { status := 401, json := .error ("unauthorized body") }
    refresh := fun tok =>
      if tok == "R1" then .ok { status := 200, tokens := some ("A2", "R2") }
      else .netError ("refresh endpoint unreachable") }

/-- Backend whose resource endpoint always answers 401 and whose refresh
endpoint answers 400 with no token pair. -/
def envRefreshRejected : FetchEnv UserProfile :=
  { send := fun _ => .ok { status := 401, json := .error ("unauthorized body") }
    refresh := fun _ => .ok { status := 400, tokens := none } }

/-- Backend whose resource endpoint answers 200 at once. -/
def envPlain200 : FetchEnv UserProfile :=
  { send := fun _ => .ok { status := 200, json := .ok sampleProfile }
    refresh := fun _ => .netError ("refresh endpoint unreachable") }

/-- Image backend answering 404: no profile image exists. -/
def envImage404 : FetchEnv ProfileImageResponse :=
  { send := fun _ => .ok { status := 404, json := .error ("not found body") }
    refresh := fun _ => .netError ("refresh endpoint unreachable") }

/-- Image backend answering 200 with an image URL. -/
def envImage200 : FetchEnv ProfileImageResponse :=
  { send := fun _ => .ok { status := 200, json := .ok { image_url := "/media/a.png", message := "ok" } }
    refresh := fun _ => .netError ("refresh endpoint unreachable") }

/-- Backend whose resource endpoint fails with a plain network error. -/
def envNetDown : FetchEnv UserProfile :=
  { send := fun _ => .netError ("Failed to fetch")
    refresh := fun _ => .netError ("refresh endpoint unreachable") }

/-- The common result handling the three profile read/update functions
share: a thrown error is re-thrown when its message carries the fatal
marker and swallowed into null otherwise; a non-ok reply yields null; an
ok reply is parsed, the parse error being handled like a thrown error, and
the parsed data finished by the continuation k of the given function. -/
def profilePostlude (out : Except String (Response β) × Trace) (k : β → Option γ) :
    Except String (Option γ) × Trace :=
  match out with
  | (.error m, tr) => (if containsTokenRefreshFailed m then .error m else .ok none, tr)
  | (.ok resp, tr) =>
    if resp.isOkStatus then
      match resp.json with
      | .error m => (if containsTokenRefreshFailed m then .error m else .ok none, tr)
      | .ok data => (.ok (k data), tr)
    else
      (.ok none, tr)

/-- An error with message m is thrown during a profile-service call whose
fetch outcome is out: either the fetch itself threw m, or the fetch
resolved with an ok reply whose body parse throws m. -/
def profileCallThrown (out : Except String (Response β) × Trace) (m : String) : Prop :=
  out.1 = .error m ∨
  ∃ resp, out.1 = .ok resp ∧ resp.isOkStatus = true ∧ resp.json = .error m

/-- The options fetchUserProfile and fetchProfileImage pass. -/
def getJsonOpts : RequestOptions :=
  { method := "GET", headers := jsonHeaders, body := none }

/-- The options updateUserProfile passes. -/
def putProfileOpts (username phone_number : String) : RequestOptions :=
  { method := "PUT", headers := jsonHeaders,
    body := some (.json [("username", username), ("phone_number", phone_number)]) }

/-- The options uploadProfileImage passes: FormData body, no headers. -/
def postImageOpts : RequestOptions :=
  { method := "POST", headers := [], body := some .formData }

/-! ## Theorems -/

/-- Every request a fetchWithAuth invocation sends is the caller request
with some bearer token attached, and the first one carries the given
access token. -/
theorem fetchWithAuth_sends_shape (env : FetchEnv β) (url : String)
    (opts : RequestOptions) (a r : String) (cb : TokenCallback) :
    ∀ req ∈ (fetchWithAuth env url opts a r cb).2.sends, ∃ t, req = mkSent url opts t := by
  intro req hreq
  unfold fetchWithAuth at hreq
  repeat' split at hreq
  all_goals
    simp only [List.mem_cons, List.mem_singleton, List.not_mem_nil, or_false] at hreq
  all_goals
    first
      | exact ⟨_, hreq⟩
      | (rcases hreq with h | h
         · exact ⟨_, h⟩
         · exact ⟨_, h⟩)

/-- C1: when the original request returns 401 and the refresh fails by
network error, non-2xx status, or malformed body, fetchWithAuth fails with
the Token refresh failed error, only the original request was sent (no
retry), one refresh call was made, and the callback was never invoked. -/
theorem fetchWithAuth_refreshFailure_fatal (env : FetchEnv β) (url : String)
    (opts : RequestOptions) (a r : String) (cb : TokenCallback) (resp : Response β)
    (hsend : env.send a = .ok resp) (h401 : resp.status = 401)
    (hfail : refreshFails env r) :
    fetchWithAuth env url opts a r cb =
      (.error tokenRefreshFailedMsg, ⟨[mkSent url opts a], 1, []⟩) := by
  rcases hfail with ⟨m, hm⟩ | ⟨rr, hrr, hbad⟩
  · simp [fetchWithAuth, hsend, h401, hm]
  · rcases hbad with hnot2xx | hnone
    · simp [fetchWithAuth, hsend, h401, hrr, decide_eq_false hnot2xx]
    · by_cases h2xx : 200 ≤ rr.status ∧ rr.status < 300
      · simp [fetchWithAuth, hsend, h401, hrr, decide_eq_true h2xx, hnone]
      · simp [fetchWithAuth, hsend, h401, hrr, decide_eq_false h2xx]

/-- Witness for C1 at the concrete backend envRefreshRejected. -/
theorem fetchWithAuth_refreshFailure_fatal_witness :
    fetchWithAuth envRefreshRejected "/u" ⟨"GET", [], none⟩ "A1" "R1" cbOk =
      (.error tokenRefreshFailedMsg, ⟨[mkSent "/u" ⟨"GET", [], none⟩ "A1"], 1, []⟩) :=
  fetchWithAuth_refreshFailure_fatal envRefreshRejected "/u" ⟨"GET", [], none⟩ "A1" "R1" cbOk
    { status := 401, json := .error ("unauthorized body") }
    rfl rfl (Or.inr ⟨{ status := 400, tokens := none }, rfl, Or.inr rfl⟩)

/-- C2: when the original request returns 401, the refresh succeeds with a
new token pair, the callback resolves, and the retry gets an answer, the
callback was invoked exactly once with the new pair, the original request
was retried exactly once with the new access token, the reply of the retry
is returned whatever its status, and the trace holds exactly two resource
requests plus one refresh call. -/
theorem fetchWithAuth_refreshSuccess_retryOnce (env : FetchEnv β) (url : String)
    (opts : RequestOptions) (a r na nr : String) (cb : TokenCallback)
    (resp : Response β) (rr : RefreshResponse) (resp2 : Response β)
    (hsend : env.send a = .ok resp) (h401 : resp.status = 401)
    (hrefresh : env.refresh r = .ok rr) (h2xx : 200 ≤ rr.status ∧ rr.status < 300)
    (htokens : rr.tokens = some (na, nr)) (hcb : cb na nr = .ok ())
    (hretry : env.send na = .ok resp2) :
    fetchWithAuth env url opts a r cb =
      (.ok resp2, ⟨[mkSent url opts a, mkSent url opts na], 1, [(na, nr)]⟩) := by
  simp [fetchWithAuth, hsend, h401, hrefresh, decide_eq_true h2xx, htokens, hcb, hretry]

/-- Witness for C2 at the concrete backend envRotate: the token pair
rotates to A2 and R2 and the 200 retry reply is returned. -/
theorem fetchWithAuth_refreshSuccess_retryOnce_witness :
    fetchWithAuth envRotate "/u" ⟨"GET", [], none⟩ "A1" "R1" cbOk =
      (.ok { status := 200, json := .ok sampleProfile },
        ⟨[mkSent "/u" ⟨"GET", [], none⟩ "A1", mkSent "/u" ⟨"GET", [], none⟩ "A2"], 1,
          [("A2", "R2")]⟩) :=
  fetchWithAuth_refreshSuccess_retryOnce envRotate "/u" ⟨"GET", [], none⟩ "A1" "R1" "A2" "R2" cbOk
    { status := 401, json := .error ("unauthorized body") }
    { status := 200, tokens := some ("A2", "R2") }
    { status := 200, json := .ok sampleProfile }
    rfl rfl rfl (by constructor <;> decide) rfl rfl rfl

/-- C3: in any fetchWithAuth invocation the callback runs at most once; any
pair it is called with is exactly the pair a successful (2xx, well-formed)
refresh reply carried, so it never runs speculatively; and when the first
attempt answers 200 the callback never runs and exactly the one original
request is sent. -/
theorem fetchWithAuth_callback_discipline (env : FetchEnv β) (url : String)
    (opts : RequestOptions) (a r : String) (cb : TokenCallback) :
    (fetchWithAuth env url opts a r cb).2.tokenUpdates.length ≤ 1 ∧
    (∀ p ∈ (fetchWithAuth env url opts a r cb).2.tokenUpdates,
      ∃ rr, env.refresh r = .ok rr ∧ (200 ≤ rr.status ∧ rr.status < 300) ∧
        rr.tokens = some p) ∧
    (∀ resp, env.send a = .ok resp → resp.status = 200 →
      (fetchWithAuth env url opts a r cb).2.tokenUpdates = [] ∧
      (fetchWithAuth env url opts a r cb).2.sends = [mkSent url opts a]) := by
  refine ⟨?_, ?_, ?_⟩
  · unfold fetchWithAuth
    repeat' split
    all_goals simp
  · intro p hp
    unfold fetchWithAuth at hp
    cases hs : env.send a with
    | netError m => simp only [hs] at hp; simp at hp
    | ok resp =>
      simp only [hs] at hp
      by_cases h401 : resp.status = 401
      · simp only [h401, beq_self_eq_true, if_true] at hp
        cases hr : env.refresh r with
        | netError m => simp only [hr] at hp; simp at hp
        | ok rr =>
          simp only [hr] at hp
          by_cases h2xx : 200 ≤ rr.status ∧ rr.status < 300
          · simp only [decide_eq_true h2xx, if_true] at hp
            cases htok : rr.tokens with
            | none => simp only [htok] at hp; simp at hp
            | some pr =>
              obtain ⟨na, nr⟩ := pr
              simp only [htok] at hp
              cases hcb : cb na nr with
              | error m =>
                simp only [hcb, List.mem_singleton] at hp
                exact ⟨rr, rfl, h2xx, by rw [hp]; exact htok⟩
              | ok u =>
                simp only [hcb] at hp
                cases hs2 : env.send na with
                | netError m =>
                  simp only [hs2, List.mem_singleton] at hp
                  exact ⟨rr, rfl, h2xx, by rw [hp]; exact htok⟩
                | ok resp2 =>
                  simp only [hs2, List.mem_singleton] at hp
                  exact ⟨rr, rfl, h2xx, by rw [hp]; exact htok⟩
          · simp only [decide_eq_false h2xx] at hp
            simp at hp
      · rw [if_neg (show ¬((resp.status == 401) = true) by simp [h401])] at hp
        simp at hp
  · intro resp hsend h200
    constructor <;> simp [fetchWithAuth, hsend, h200]

/-- Witness for C3 at the concrete backend envPlain200. -/
theorem fetchWithAuth_callback_discipline_witness :
    (fetchWithAuth envPlain200 "/u" ⟨"GET", [], none⟩ "A1" "R1" cbOk).2.tokenUpdates = [] ∧
    (fetchWithAuth envPlain200 "/u" ⟨"GET", [], none⟩ "A1" "R1" cbOk).2.sends =
      [mkSent "/u" ⟨"GET", [], none⟩ "A1"] :=
  (fetchWithAuth_callback_discipline envPlain200 "/u" ⟨"GET", [], none⟩ "A1" "R1" cbOk).2.2
    { status := 200, json := .ok sampleProfile } rfl rfl

/-- C4: a response whose status is not 401 is returned as-is with no
refresh call and no retry; in particular fetchProfileImage treats a 404
reply as no-image, returning null rather than an error, with no refresh
attempted. -/
theorem fetchWithAuth_non401_passthrough :
    (∀ (β : Type) (env : FetchEnv β) (url : String) (opts : RequestOptions)
      (a r : String) (cb : TokenCallback) (resp : Response β),
      env.send a = .ok resp → resp.status ≠ 401 →
      fetchWithAuth env url opts a r cb = (.ok resp, ⟨[mkSent url opts a], 0, []⟩)) ∧
    (∀ (env : FetchEnv ProfileImageResponse) (a r : String) (cb : TokenCallback)
      (resp : Response ProfileImageResponse),
      env.send a = .ok resp → resp.status = 404 →
      (fetchProfileImage env a r cb).1 = .ok none ∧
      (fetchProfileImage env a r cb).2.refreshCalls = 0) := by
  have pass : ∀ (β : Type) (env : FetchEnv β) (url : String) (opts : RequestOptions)
      (a r : String) (cb : TokenCallback) (resp : Response β),
      env.send a = .ok resp → resp.status ≠ 401 →
      fetchWithAuth env url opts a r cb = (.ok resp, ⟨[mkSent url opts a], 0, []⟩) := by
    intro β env url opts a r cb resp hsend h401
    unfold fetchWithAuth
    simp only [hsend]
    rw [if_neg (show ¬((resp.status == 401) = true) by simp [h401])]
  refine ⟨pass, ?_⟩
  intro env a r cb resp hsend h404
  have h401 : resp.status ≠ 401 := by rw [h404]; decide
  have hfetch := pass ProfileImageResponse env profileImageUrl
    { method := "GET", headers := jsonHeaders, body := none } a r cb resp hsend h401
  have hnotOk : resp.isOkStatus = false := by
    unfold Response.isOkStatus
    rw [h404]
    decide
  constructor <;> simp [fetchProfileImage, hfetch, hnotOk, h404]

/-- Witness for C4 at the concrete 404 image backend envImage404. -/
theorem fetchWithAuth_non401_passthrough_witness :
    (fetchProfileImage envImage404 "A1" "R1" cbOk).1 = .ok none ∧
    (fetchProfileImage envImage404 "A1" "R1" cbOk).2.refreshCalls = 0 :=
  fetchWithAuth_non401_passthrough.2 envImage404 "A1" "R1" cbOk
    { status := 404, json := .error ("not found body") } rfl rfl

/-- fetchUserProfile is its fetch call followed by the shared postlude
with the identity-to-some continuation. -/
theorem fetchUserProfile_eq (env : FetchEnv UserProfile) (a r : String) (cb : TokenCallback) :
    fetchUserProfile env a r cb =
      profilePostlude (fetchWithAuth env userProfileUrl getJsonOpts a r cb) some := by
  unfold fetchUserProfile profilePostlude getJsonOpts
  rcases fetchWithAuth env userProfileUrl
      { method := "GET", headers := jsonHeaders, body := none } a r cb with ⟨res, tr⟩
  cases res with
  | error m => rfl
  | ok resp =>
    by_cases hok : resp.isOkStatus = true
    · cases hj : resp.json <;> simp [hok, hj]
    · simp only [Bool.not_eq_true] at hok
      simp [hok]

/-- updateUserProfile is its fetch call followed by the shared postlude. -/
theorem updateUserProfile_eq (env : FetchEnv UserProfile) (username phone_number : String)
    (a r : String) (cb : TokenCallback) :
    updateUserProfile env username phone_number a r cb =
      profilePostlude
        (fetchWithAuth env userProfileUrl (putProfileOpts username phone_number) a r cb)
        some := by
  unfold updateUserProfile profilePostlude putProfileOpts
  rcases fetchWithAuth env userProfileUrl
      { method := "PUT", headers := jsonHeaders,
        body := some (.json [("username", username), ("phone_number", phone_number)]) }
      a r cb with ⟨res, tr⟩
  cases res with
  | error m => rfl
  | ok resp =>
    by_cases hok : resp.isOkStatus = true
    · cases hj : resp.json <;> simp [hok, hj]
    · simp only [Bool.not_eq_true] at hok
      simp [hok]

/-- fetchProfileImage is its fetch call followed by the shared postlude
with the image-url continuation; the explicit 404 branch of the source and
the general non-ok branch both yield null. -/
theorem fetchProfileImage_eq (env : FetchEnv ProfileImageResponse) (a r : String)
    (cb : TokenCallback) :
    fetchProfileImage env a r cb =
      profilePostlude (fetchWithAuth env profileImageUrl getJsonOpts a r cb)
        (fun d => if d.image_url == "" then none else some d.image_url) := by
  unfold fetchProfileImage profilePostlude getJsonOpts
  rcases fetchWithAuth env profileImageUrl
      { method := "GET", headers := jsonHeaders, body := none } a r cb with ⟨res, tr⟩
  cases res with
  | error m => rfl
  | ok resp =>
    by_cases hok : resp.isOkStatus = true
    · cases hj : resp.json <;> simp [hok, hj]
    · simp only [Bool.not_eq_true] at hok
      simp [hok]

/-- The shared postlude throws exactly the thrown errors whose message
carries the fatal marker, and swallows every other thrown error into a
null result. -/
theorem profilePostlude_taxonomy (out : Except String (Response β) × Trace)
    (k : β → Option γ) (m : String) :
    ((profilePostlude out k).1 = .error m ↔
      profileCallThrown out m ∧ containsTokenRefreshFailed m = true) ∧
    (profileCallThrown out m → containsTokenRefreshFailed m = false →
      (profilePostlude out k).1 = .ok none) := by
  rcases out with ⟨res, tr⟩
  cases res with
  | error m0 =>
    by_cases hm : m0 = m
    · subst hm
      by_cases htrf : containsTokenRefreshFailed m0 = true
      · simp [profilePostlude, profileCallThrown, htrf]
      · simp only [Bool.not_eq_true] at htrf
        simp [profilePostlude, profileCallThrown, htrf]
    · by_cases htrf : containsTokenRefreshFailed m0 = true
      · simp [profilePostlude, profileCallThrown, htrf, hm]
      · simp only [Bool.not_eq_true] at htrf
        simp [profilePostlude, profileCallThrown, htrf, hm]
  | ok resp =>
    by_cases hok : resp.isOkStatus = true
    · cases hj : resp.json with
      | error m0 =>
        by_cases hm : m0 = m
        · subst hm
          by_cases htrf : containsTokenRefreshFailed m0 = true
          · simp [profilePostlude, profileCallThrown, htrf, hok, hj]
          · simp only [Bool.not_eq_true] at htrf
            simp [profilePostlude, profileCallThrown, htrf, hok, hj]
        · by_cases htrf : containsTokenRefreshFailed m0 = true
          · simp [profilePostlude, profileCallThrown, htrf, hok, hj, hm]
          · simp only [Bool.not_eq_true] at htrf
            simp [profilePostlude, profileCallThrown, htrf, hok, hj, hm]
      | ok data =>
        simp [profilePostlude, profileCallThrown, hok, hj]
    · simp only [Bool.not_eq_true] at hok
      simp [profilePostlude, profileCallThrown, hok]

/-- C5: each of fetchUserProfile, updateUserProfile and fetchProfileImage
throws exactly when an error was thrown during the call whose message
carries the Token refresh failed marker, and then throws that very error;
every other thrown error (network failure, body parse failure) is
swallowed and the function resolves with null instead. -/
theorem profileService_rethrow_iff_fatal :
    (∀ (env : FetchEnv UserProfile) (a r : String) (cb : TokenCallback) (m : String),
      ((fetchUserProfile env a r cb).1 = .error m ↔
        profileCallThrown (fetchWithAuth env userProfileUrl getJsonOpts a r cb) m ∧
          containsTokenRefreshFailed m = true) ∧
      (profileCallThrown (fetchWithAuth env userProfileUrl getJsonOpts a r cb) m →
        containsTokenRefreshFailed m = false → (fetchUserProfile env a r cb).1 = .ok none)) ∧
    (∀ (env : FetchEnv UserProfile) (username phone_number a r : String)
      (cb : TokenCallback) (m : String),
      ((updateUserProfile env username phone_number a r cb).1 = .error m ↔
        profileCallThrown
          (fetchWithAuth env userProfileUrl (putProfileOpts username phone_number) a r cb) m ∧
          containsTokenRefreshFailed m = true) ∧
      (profileCallThrown
          (fetchWithAuth env userProfileUrl (putProfileOpts username phone_number) a r cb) m →
        containsTokenRefreshFailed m = false →
        (updateUserProfile env username phone_number a r cb).1 = .ok none)) ∧
    (∀ (env : FetchEnv ProfileImageResponse) (a r : String) (cb : TokenCallback) (m : String),
      ((fetchProfileImage env a r cb).1 = .error m ↔
        profileCallThrown (fetchWithAuth env profileImageUrl getJsonOpts a r cb) m ∧
          containsTokenRefreshFailed m = true) ∧
      (profileCallThrown (fetchWithAuth env profileImageUrl getJsonOpts a r cb) m →
        containsTokenRefreshFailed m = false → (fetchProfileImage env a r cb).1 = .ok none)) := by
  refine ⟨?_, ?_, ?_⟩
  · intro env a r cb m
    rw [fetchUserProfile_eq]
    exact profilePostlude_taxonomy _ _ m
  · intro env username phone_number a r cb m
    rw [updateUserProfile_eq]
    exact profilePostlude_taxonomy _ _ m
  · intro env a r cb m
    rw [fetchProfileImage_eq]
    exact profilePostlude_taxonomy _ _ m

/-- Witness for C5: a plain network failure is swallowed into a null
profile rather than re-thrown. -/
theorem profileService_rethrow_iff_fatal_witness :
    (fetchUserProfile envNetDown "A1" "R1" cbOk).1 = .ok none :=
  (profileService_rethrow_iff_fatal.1 envNetDown "A1" "R1" cbOk "Failed to fetch").2
    (Or.inl rfl) (by decide)

/-- Attaching the bearer header never adds a content-type entry. -/
theorem hasContentType_mkSent (url : String) (opts : RequestOptions) (t : String) :
    hasContentType (mkSent url opts t).headers = hasContentType opts.headers := by
  simp only [hasContentType, mkSent, List.any_append, List.any_cons, List.any_nil,
    Bool.or_false]
  have h : (("Authorization").data.map Char.toLower == ("content-type").data) = false := by
    decide
  simp [h]

/-- The trace of uploadProfileImageBody is the trace of its fetch call. -/
theorem uploadProfileImageBody_trace (env : FetchEnv ProfileImageResponse)
    (a r : String) (cb : TokenCallback) :
    (uploadProfileImageBody env a r cb).2 =
      (fetchWithAuth env profileImageUrl postImageOpts a r cb).2 := by
  unfold uploadProfileImageBody postImageOpts
  rcases h : fetchWithAuth env profileImageUrl
      { method := "POST", headers := [], body := some .formData } a r cb with ⟨res, tr⟩
  cases res with
  | error m => rfl
  | ok resp =>
    by_cases hok : resp.isOkStatus = true
    · cases hj : resp.json <;> simp [hok, hj]
    · simp only [Bool.not_eq_true] at hok
      simp [hok]

/-- C7: a fetchWithAuth request whose caller passes a FormData body and no
explicit content-type header goes on the wire with a FormData body and no
content-type header, on the original send and on the retry alike; in
particular every request uploadProfileImage sends has a FormData body and
no content-type header. -/
theorem multipart_requests_have_no_contentType :
    (∀ (β : Type) (env : FetchEnv β) (url : String) (opts : RequestOptions)
      (a r : String) (cb : TokenCallback),
      opts.body = some .formData → hasContentType opts.headers = false →
      ∀ req ∈ (fetchWithAuth env url opts a r cb).2.sends,
        req.body = some .formData ∧ hasContentType req.headers = false) ∧
    (∀ (env : FetchEnv ProfileImageResponse) (fileSize : Nat) (a r : String)
      (cb : TokenCallback),
      ∀ req ∈ (uploadProfileImage env fileSize a r cb).2.sends,
        req.body = some .formData ∧ hasContentType req.headers = false) := by
  have general : ∀ (β : Type) (env : FetchEnv β) (url : String) (opts : RequestOptions)
      (a r : String) (cb : TokenCallback),
      opts.body = some .formData → hasContentType opts.headers = false →
      ∀ req ∈ (fetchWithAuth env url opts a r cb).2.sends,
        req.body = some .formData ∧ hasContentType req.headers = false := by
    intro β env url opts a r cb hbody hct req hreq
    obtain ⟨t, rfl⟩ := fetchWithAuth_sends_shape env url opts a r cb req hreq
    refine ⟨hbody, ?_⟩
    rw [hasContentType_mkSent]
    exact hct
  refine ⟨general, ?_⟩
  intro env fileSize a r cb req hreq
  unfold uploadProfileImage at hreq
  by_cases hsize : fileSize > maxUploadSize
  · rw [if_pos hsize] at hreq
    simp at hreq
  · rw [if_neg hsize] at hreq
    rw [show (uploadProfileImageBody env a r cb).2.sends =
        (fetchWithAuth env profileImageUrl postImageOpts a r cb).2.sends from
      congrArg Trace.sends (uploadProfileImageBody_trace env a r cb)] at hreq
    exact general ProfileImageResponse env profileImageUrl postImageOpts a r cb rfl rfl req hreq

/-- Witness for C7 on the concrete 200 image backend: the one request the
upload sends carries the FormData body and no content-type header. -/
theorem multipart_requests_have_no_contentType_witness :
    (mkSent profileImageUrl postImageOpts "A1").body = some .formData ∧
    hasContentType (mkSent profileImageUrl postImageOpts "A1").headers = false :=
  multipart_requests_have_no_contentType.2 envImage200 0 "A1" "R1" cbOk
    (mkSent profileImageUrl postImageOpts "A1") (by decide)

/-- Counterexample to C6 as stated: on the fatal refresh error, the submit
handler of the edit-profile drawer raises only the session-expired toast
and neither clears the session nor navigates to the login surface, and the
order-form preloader swallows the error entirely, with no toast, no
signOut and no navigation. -/
theorem editProfileSubmitCatch_fatal_no_signOut :
    containsTokenRefreshFailed ("Token refresh failed") = true ∧
    (editProfileSubmitCatch ("Token refresh failed")).signedOut = false ∧
    (editProfileSubmitCatch ("Token refresh failed")).redirectedTo = none ∧
    (editProfileSubmitCatch ("Token refresh failed")).toastError =
      some ("Session expired. Please login again.") ∧
    preloaderCatch ("Token refresh failed") =
      ⟨false, none, none, none⟩ := by
  decide

/-- C6 amended: on an error carrying the fatal marker, only the
profile-page load handler, the offices-page load handler and the two
create-order handlers sign out and navigate to the login page; the two
edit-profile-drawer handlers raise the session-expired toast without
signing out or navigating; and the order-form preloader catch and the
parcel-dialog search catch swallow the error silently, with no toast, no
signOut and no navigation. -/
theorem uiHandlers_fatal_policy (msg : String)
    (h : containsTokenRefreshFailed msg = true) :
    loadProfileCatch msg =
      ⟨true, some ("/login"), none, none⟩ ∧
    loadOfficesCatch msg =
      ⟨true, some ("/login"), none, none⟩ ∧
    createOrderLoadCatch msg =
      ⟨true, some ("/login"), none, none⟩ ∧
    createOrderSubmitCatch msg =
      ⟨true, some ("/login"), none, none⟩ ∧
    editProfileSubmitCatch msg =
      ⟨false, none, some ("Session expired. Please login again."), none⟩ ∧
    imageUploadCatch msg =
      ⟨false, none, some ("Session expired. Please login again."), none⟩ ∧
    preloaderCatch msg =
      ⟨false, none, none, none⟩ ∧
    (∀ (isMounted : Bool) (e : JsError) (s : ParcelSearchState), e.message = msg →
      (addParcelSearchCatch isMounted e s).toastError = none ∧
      (addParcelSearchCatch isMounted e s).signedOut = false ∧
      (addParcelSearchCatch isMounted e s).redirectedTo = none) := by
  refine ⟨?_, ?_, ?_, ?_, ?_, ?_, rfl, ?_⟩
  · simp [loadProfileCatch, h]
  · simp [loadOfficesCatch, h]
  · simp [createOrderLoadCatch, h]
  · simp [createOrderSubmitCatch, h]
  · simp [editProfileSubmitCatch, h]
  · simp [imageUploadCatch, h]
  · intro isMounted e s _
    refine ⟨rfl, rfl, rfl⟩

/-- Witness for the amended C6 at the fatal message itself. -/
theorem uiHandlers_fatal_policy_witness :
    loadProfileCatch ("Token refresh failed") =
      ⟨true, some ("/login"), none, none⟩ ∧
    loadOfficesCatch ("Token refresh failed") =
      ⟨true, some ("/login"), none, none⟩ ∧
    createOrderLoadCatch ("Token refresh failed") =
      ⟨true, some ("/login"), none, none⟩ ∧
    createOrderSubmitCatch ("Token refresh failed") =
      ⟨true, some ("/login"), none, none⟩ ∧
    editProfileSubmitCatch ("Token refresh failed") =
      ⟨false, none, some ("Session expired. Please login again."), none⟩ ∧
    imageUploadCatch ("Token refresh failed") =
      ⟨false, none, some ("Session expired. Please login again."), none⟩ ∧
    preloaderCatch ("Token refresh failed") =
      ⟨false, none, none, none⟩ ∧
    (∀ (isMounted : Bool) (e : JsError) (s : ParcelSearchState),
      e.message = "Token refresh failed" →
      (addParcelSearchCatch isMounted e s).toastError = none ∧
      (addParcelSearchCatch isMounted e s).signedOut = false ∧
      (addParcelSearchCatch isMounted e s).redirectedTo = none) :=
  uiHandlers_fatal_policy ("Token refresh failed") (by decide)

/-- Counterexample to C8 as stated: the debounced office search of the
parcel dialog fires the service call for a three-letter-or-longer query
even when both token props are the empty string, as they are when the
parent has no session, so this call site performs a network call with
absent credentials instead of returning early. -/
theorem addParcelSearch_no_token_guard :
    addParcelSearchCall ("Nairobi") "" "" = some ("", "") := by
  decide

/-- C8 amended: every call site checking tokens returns early when either
token is absent or empty, and those are all call sites except the parcel
dialog office search, which fires with whatever token props it holds
whenever the query passes the length guard. -/
theorem callSites_token_guards (accessTok refreshTok : Option String)
    (h : truthy accessTok = false ∨ truthy refreshTok = false) :
    loadProfileProceeds accessTok refreshTok = false ∧
    handleProfileUpdateProceeds accessTok refreshTok = false ∧
    (∀ u p, editProfileSubmitProceeds accessTok refreshTok u p = false) ∧
    (∀ f, handleImageUploadProceeds f accessTok refreshTok = false) ∧
    (∀ force isRefreshing, loadOfficesProceeds accessTok refreshTok force isRefreshing = false) ∧
    (∀ cv ol wl, preloaderProceeds accessTok refreshTok cv ol wl = false) ∧
    (∀ isOpen, createOrderLoadProceeds isOpen accessTok refreshTok = false) ∧
    createOrderSubmitProceeds accessTok refreshTok = false ∧
    (∀ q a r, allWhitespace q = false → 3 ≤ q.length →
      addParcelSearchCall q a r = some (a, r)) := by
  refine ⟨?_, ?_, ?_, ?_, ?_, ?_, ?_, ?_, ?_⟩
  · rcases h with h | h <;> simp [loadProfileProceeds, h]
  · rcases h with h | h <;> simp [handleProfileUpdateProceeds, h]
  · intro u p
    rcases h with h | h <;> simp [editProfileSubmitProceeds, h]
  · intro f
    cases f with
    | none => rfl
    | some f' => rcases h with h | h <;> simp [handleImageUploadProceeds, h]
  · intro force isRefreshing
    rcases h with h | h <;> simp [loadOfficesProceeds, h]
  · intro cv ol wl
    rcases h with h | h <;> simp [preloaderProceeds, h]
  · intro isOpen
    rcases h with h | h <;> simp [createOrderLoadProceeds, h]
  · rcases h with h | h <;> simp [createOrderSubmitProceeds, h]
  · intro q a r hq hlen
    simp [addParcelSearchCall, addParcelSearchProceeds, hq, hlen]

/-- Witness for the amended C8: with no access token at all, the checking
call sites return early, while the parcel-dialog search still fires. -/
theorem callSites_token_guards_witness :
    loadProfileProceeds none (some ("R1")) = false ∧
    createOrderSubmitProceeds none (some ("R1")) = false :=
  ⟨(callSites_token_guards none (some ("R1")) (Or.inl rfl)).1,
    (callSites_token_guards none (some ("R1")) (Or.inl rfl)).2.2.2.2.2.2.2.1⟩

/-- C9: when the awaited search rejects with an AbortError, the catch
clause of the parcel-dialog search leaves the destination list and the
selected office untouched, logs nothing, raises no toast, and neither
signs out nor navigates: the aborted outcome is silently discarded and is
never handled as a fatal refresh failure. -/
theorem addParcelSearch_abort_discarded (isMounted : Bool) (e : JsError)
    (s : ParcelSearchState) (h : e.name = "AbortError") :
    (addParcelSearchCatch isMounted e s).state.destinationOffices = s.destinationOffices ∧
    (addParcelSearchCatch isMounted e s).state.selectedDestinationOffice =
      s.selectedDestinationOffice ∧
    (addParcelSearchCatch isMounted e s).logged = false ∧
    (addParcelSearchCatch isMounted e s).toastError = none ∧
    (addParcelSearchCatch isMounted e s).signedOut = false ∧
    (addParcelSearchCatch isMounted e s).redirectedTo = none := by
  cases isMounted <;> simp [addParcelSearchCatch, h]

/-- Witness for C9 at a concrete aborted request on a mounted dialog with
a populated result list. -/
theorem addParcelSearch_abort_discarded_witness :
    (addParcelSearchCatch true ⟨"AbortError", "The user aborted a request."⟩
        ⟨["office-1"], "office-1", true⟩).state.destinationOffices = ["office-1"] ∧
    (addParcelSearchCatch true ⟨"AbortError", "The user aborted a request."⟩
        ⟨["office-1"], "office-1", true⟩).state.selectedDestinationOffice = "office-1" ∧
    (addParcelSearchCatch true ⟨"AbortError", "The user aborted a request."⟩
        ⟨["office-1"], "office-1", true⟩).logged = false ∧
    (addParcelSearchCatch true ⟨"AbortError", "The user aborted a request."⟩
        ⟨["office-1"], "office-1", true⟩).toastError = none ∧
    (addParcelSearchCatch true ⟨"AbortError", "The user aborted a request."⟩
        ⟨["office-1"], "office-1", true⟩).signedOut = false ∧
    (addParcelSearchCatch true ⟨"AbortError", "The user aborted a request."⟩
        ⟨["office-1"], "office-1", true⟩).redirectedTo = none :=
  addParcelSearch_abort_discarded true ⟨"AbortError", "The user aborted a request."⟩
    ⟨["office-1"], "office-1", true⟩ rfl

/-- The sends of a fetchWithAuth trace are never empty: at least the
original request goes out. -/
theorem fetchWithAuth_sends_ne_nil (env : FetchEnv β) (url : String)
    (opts : RequestOptions) (a r : String) (cb : TokenCallback) :
    (fetchWithAuth env url opts a r cb).2.sends ≠ [] := by
  unfold fetchWithAuth
  repeat' split
  all_goals simp

/-- C10: uploadProfileImage returns the size error together with the empty
trace, meaning no network call at all, exactly when the file exceeds the
15MB bound; at or under the bound it behaves as the size-independent
upload body, so no size error is raised by the check. -/
theorem uploadProfileImage_size_gate (env : FetchEnv ProfileImageResponse)
    (fileSize : Nat) (a r : String) (cb : TokenCallback) :
    (uploadProfileImage env fileSize a r cb =
        (.error fileSizeMsg, ⟨[], 0, []⟩) ↔ fileSize > maxUploadSize) ∧
    (fileSize ≤ maxUploadSize →
      uploadProfileImage env fileSize a r cb = uploadProfileImageBody env a r cb) := by
  constructor
  · constructor
    · intro heq
      by_contra hnot
      rw [uploadProfileImage, if_neg hnot] at heq
      have hsends := congrArg (fun out => out.2.sends) heq
      simp only at hsends
      rw [show (uploadProfileImageBody env a r cb).2.sends =
          (fetchWithAuth env profileImageUrl postImageOpts a r cb).2.sends from
        congrArg Trace.sends (uploadProfileImageBody_trace env a r cb)] at hsends
      exact fetchWithAuth_sends_ne_nil env profileImageUrl postImageOpts a r cb hsends
    · intro hgt
      rw [uploadProfileImage, if_pos hgt]
  · intro hle
    rw [uploadProfileImage, if_neg (not_lt.mpr hle)]

/-- Witness for C10: a file one byte over the bound is rejected with no
request sent, and one exactly at the bound goes through to the network. -/
theorem uploadProfileImage_size_gate_witness :
    uploadProfileImage envImage200 (15 * 1024 * 1024 + 1) "A1" "R1" cbOk =
      (.error fileSizeMsg, ⟨[], 0, []⟩) ∧
    uploadProfileImage envImage200 (15 * 1024 * 1024) "A1" "R1" cbOk =
      uploadProfileImageBody envImage200 "A1" "R1" cbOk :=
  ⟨(uploadProfileImage_size_gate envImage200 (15 * 1024 * 1024 + 1) "A1" "R1" cbOk).1.mpr
      (by decide),
    (uploadProfileImage_size_gate envImage200 (15 * 1024 * 1024) "A1" "R1" cbOk).2
      (by decide)⟩

end WakaAgent
